import Mathlib

/-!
Shallow embedding of the Day_Care service (a TypeScript/Express/azle canister)
and verification of its specification claims.

The repository contains two near-duplicate variants of the server:
`src/index.ts` (the primary variant, modelled by `postOwner`, `postChildren`,
`postFeeStructure`, `postPayments`, `putChildrenId`) and a second unnamed
variant (`postOwnerV2`, `postPaymentsV2`) which differs in the POST /owner
duplicate check and in the presence of a fee-structure-missing check in
POST /payments.

Modelling conventions:
- JS numbers are modelled as rationals (ℚ); `Math.min`/`Math.max` are `min`/`max`.
- `Date` values are modelled as natural-number timestamps; `uuidv4()` and
  `getCurrentDate()` are supplied by an environment `Env`.
- `StableBTreeMap` is modelled as an association list with `storeGet`
  (first match), `storeInsert` (upsert), and `storeValues` (enumeration).
- Request-body fields subject to JS truthiness checks are modelled so that
  the falsy values the handler can see are representable: strings with
  `""` falsy, numeric payment amounts as `JsVal` (number, string or absent),
  other numeric fields as ℚ with `0` falsy.
- `parseFloat` is modelled for decimal literals (optional sign, digits,
  optional fraction); `none` plays the role of `NaN`.
-/

/- Batteries marks the rational operations irreducible; re-allow unfolding
them so that concrete runs of the handlers can be evaluated by `decide`. -/
unseal Rat.add Rat.sub Rat.mul Rat.inv Rat.ofScientific

/-- Status of a payment, mirroring the `PaymentStatus` enum. -/
inductive PaymentStatus where
  | PENDING
  | PAID
  | FAILED
deriving DecidableEq, Repr

/-- The `Owner` record. -/
structure Owner where
  id : String
  name : String
  email : String
  phoneNumber : String
  createdAt : Nat
deriving DecidableEq, Repr

/-- The `Child` record (`birthdate` is kept as the string the client sent). -/
structure Child where
  id : String
  name : String
  birthdate : String
  guardianId : String
  createdAt : Nat
deriving DecidableEq, Repr

instance : Inhabited Child :=
  ⟨{ id := "", name := "", birthdate := "", guardianId := "", createdAt := 0 }⟩

/-- The `Guardian` record. -/
structure Guardian where
  id : String
  name : String
  email : String
  phoneNumber : String
  childrenIds : List String
  createdAt : Nat
deriving DecidableEq, Repr

/-- The `Payment` record. -/
structure Payment where
  id : String
  childId : String
  amount : ℚ
  status : PaymentStatus
  date : Nat
deriving DecidableEq, Repr

/-- The `FeeStructure` record. -/
structure FeeStructure where
  id : String
  name : String
  amount : ℚ
  createdAt : Nat
deriving DecidableEq, Repr

/-- A `StableBTreeMap` modelled as an association list. `get` returns the
first binding of the key. -/
def storeGet {α : Type} : List (String × α) → String → Option α
  | [], _ => none
  | p :: rest, k => if p.1 = k then some p.2 else storeGet rest k

/-- `insert` with upsert semantics: an existing binding of the key is
replaced in place, otherwise the new binding is appended. -/
def storeInsert {α : Type} : List (String × α) → String → α → List (String × α)
  | [], k, v => [(k, v)]
  | p :: rest, k, v => if p.1 = k then (k, v) :: rest else p :: storeInsert rest k v

/-- `values()`: the stored entities in enumeration order. -/
def storeValues {α : Type} (m : List (String × α)) : List α :=
  m.map Prod.snd

/-- Looking up the key just inserted returns the inserted value. -/
theorem storeGet_storeInsert_self {α : Type} (m : List (String × α)) (k : String) (v : α) :
    storeGet (storeInsert m k v) k = some v := by
  induction m with
  | nil => simp [storeInsert, storeGet]
  | cons p rest ih =>
    by_cases h : p.1 = k
    · simp [storeInsert, storeGet, h]
    · simp [storeInsert, storeGet, h, ih]

/-- The five stable maps of the service. -/
structure State where
  childrenStorage : List (String × Child)
  guardiansStorage : List (String × Guardian)
  paymentsStorage : List (String × Payment)
  ownerStorage : List (String × Owner)
  feeStructureStorage : List (String × FeeStructure)
deriving DecidableEq, Repr

/-- Ambient effects used by the handlers: `uuidv4()` (as a supply of fresh
identifiers indexed by how many have been drawn in the request) and
`getCurrentDate()`. -/
structure Env where
  newId : Nat → String
  now : Nat

/-- A JSON value in the position of the `amount` field of a payment request:
a number, a string, or absent. -/
inductive JsVal where
  | num (q : ℚ)
  | str (s : String)
  | absent
deriving DecidableEq, Repr

/-- JS truthiness of a `JsVal`: the number 0, the empty string and `undefined`
are falsy. -/
def truthy : JsVal → Bool
  | .num q => q != 0
  | .str s => s != ""
  | .absent => false

/-- `Math.min` on (finite) JS numbers. -/
def mathMin (a b : ℚ) : ℚ :=
  if a ≤ b then a else b

/-- `Math.max` on (finite) JS numbers. -/
def mathMax (a b : ℚ) : ℚ :=
  if a ≤ b then b else a

/-- Value of a string of decimal digits. -/
def digitsToNat (ds : List Char) : Nat :=
  ds.foldl (fun acc c => 10 * acc + (c.toNat - 48)) 0

/-- `parseFloat` on a string, for decimal literals: leading whitespace,
an optional sign, digits, an optional fraction; trailing characters are
ignored. `none` stands for `NaN` (no parsable prefix). -/
def parseFloatStr (s : String) : Option ℚ :=
  let cs := s.data.dropWhile (fun c => c.isWhitespace)
  let neg := cs.head? = some '-'
  let cs2 := if cs.head? = some '-' ∨ cs.head? = some '+' then
    cs.drop 1 else cs
  let intDigits := cs2.takeWhile (fun c => c.isDigit)
  let rest := cs2.dropWhile (fun c => c.isDigit)
  let fracDigits := if rest.head? = some '.' then
    (rest.drop 1).takeWhile (fun c => c.isDigit) else []
  if intDigits.isEmpty ∧ fracDigits.isEmpty then none
  else
    let v : ℚ := mkRat (digitsToNat intDigits * 10 ^ fracDigits.length + digitsToNat fracDigits)
      (10 ^ fracDigits.length)
    some (if neg then -v else v)

/-- `parseFloat` on a JSON value; numbers pass through (JS stringifies and
re-parses a finite number losslessly), `undefined` parses to `NaN`. -/
def parseFloat : JsVal → Option ℚ
  | .num q => some q
  | .str s => parseFloatStr s
  | .absent => none

/-- A character admissible inside the email regex classes `[^\s@]`. -/
def isEmailChar (c : Char) : Bool :=
  !c.isWhitespace && c != '@'

/-- Split a character list at every occurrence of a separator (the
pieces, in order, without the separator). -/
def splitAtChar (sep : Char) : List Char → List (List Char)
  | [] => [[]]
  | c :: rest =>
    let r := splitAtChar sep rest
    if c = sep then [] :: r
    else
      match r with
      | [] => [[c]]
      | piece :: pieces => (c :: piece) :: pieces

/-- The email test `/^[^\s@]+@[^\s@]+\.[^\s@]+$/`: exactly one `@`, a
non-empty local part, and a domain containing an interior dot, with no
whitespace anywhere. -/
def validateEmail (s : String) : Bool :=
  match splitAtChar '@' s.data with
  | [localPart, domain] =>
    !localPart.isEmpty && localPart.all isEmailChar &&
    domain.all isEmailChar &&
    ((domain.drop 1).dropLast.any (fun c => c = '.'))
  | _ => false

/-- The phone test `/^\d{10}$/`. -/
def validatePhoneNumber (s : String) : Bool :=
  s.length = 10 && s.data.all (fun c => c.isDigit)

/-- Request body of POST /owner and POST /guardians (absent fields are `""`,
which is falsy like `undefined`). -/
structure OwnerBody where
  name : String
  email : String
  phoneNumber : String
deriving DecidableEq, Repr

/-- Request body of POST /children. -/
structure ChildBody where
  name : String
  birthdate : String
  guardianId : String
deriving DecidableEq, Repr

/-- Request body of POST /fee-structure; `amount` is a JSON number with
`0` falsy. -/
structure FeeBody where
  name : String
  amount : ℚ
  ownerId : String
deriving DecidableEq, Repr

/-- Request body of POST /payments. An array field is always truthy in JS,
so `childIds` is truthy iff present. -/
structure PaymentsBody where
  childIds : Option (List String)
  amount : JsVal
  guardianId : String
deriving DecidableEq, Repr

/-- Request body of PUT /children/:id: a partial record of `Child` fields
to merge over the stored record (`{...child, ...req.body}`). -/
structure ChildPatch where
  id : Option String
  name : Option String
  birthdate : Option String
  guardianId : Option String
  createdAt : Option Nat
deriving DecidableEq, Repr

/-- One balance entry `{childId, balance}` of the allocation response. -/
structure BalanceEntry where
  childId : String
  balance : ℚ
deriving DecidableEq, Repr

/-- Outcomes of POST /owner (both variants). -/
inductive OwnerResp where
  | missingFields
  | invalidPhone
  | invalidEmail
  | emailConflict
  | ownerAlreadyExists
  | created (owner : Owner)
deriving DecidableEq, Repr

/-- Outcomes of POST /children. -/
inductive ChildResp where
  | missingFields
  | guardianNotFound
  | created (child : Child)
deriving DecidableEq, Repr

/-- Outcomes of POST /fee-structure. -/
inductive FeeResp where
  | missingFields
  | ownerNotFound
  | created (feeStructure : FeeStructure)
deriving DecidableEq, Repr

/-- Outcomes of POST /payments. `crashTypeError` models the unhandled
`TypeError` that the `src/index.ts` variant throws when it dereferences
`feeStructure.amount` with an empty fee-structure store;
`feeStructureNotFound` is the 404 that the second variant returns instead. -/
inductive PaymentsResp where
  | missingFields
  | guardianNotFound
  | feeStructureNotFound
  | invalidAmount
  | invalidChildIds (ids : List String)
  | crashTypeError
  | success (payments : List Payment) (balancePerChild : List BalanceEntry)
deriving DecidableEq, Repr

/-- Outcomes of PUT /children/:id. -/
inductive PutChildResp where
  | notFound
  | updated (child : Child)
deriving DecidableEq, Repr

/-- POST /owner of `src/index.ts`: field presence, phone format, email
format, then a duplicate check that only rejects an owner with the same
email. -/
def postOwner (env : Env) (st : State) (b : OwnerBody) : OwnerResp × State :=
  if b.name = "" ∨ b.email = "" ∨ b.phoneNumber = "" then
    (.missingFields, st)
  else if validatePhoneNumber b.phoneNumber = false then
    (.invalidPhone, st)
  else if validateEmail b.email = false then
    (.invalidEmail, st)
  else if ((storeValues st.ownerStorage).find? (fun o => o.email == b.email)).isSome then
    (.emailConflict, st)
  else
    let owner : Owner :=
      { id := env.newId 0, name := b.name, email := b.email,
        phoneNumber := b.phoneNumber, createdAt := env.now }
    (.created owner, { st with ownerStorage := storeInsert st.ownerStorage owner.id owner })

/-- POST /owner of the second variant: rejects with 409 whenever any owner
already exists (`ownerStorage.values().length > 0`). -/
def postOwnerV2 (env : Env) (st : State) (b : OwnerBody) : OwnerResp × State :=
  if b.name = "" ∨ b.email = "" ∨ b.phoneNumber = "" then
    (.missingFields, st)
  else if validatePhoneNumber b.phoneNumber = false then
    (.invalidPhone, st)
  else if validateEmail b.email = false then
    (.invalidEmail, st)
  else if (storeValues st.ownerStorage).length > 0 then
    (.ownerAlreadyExists, st)
  else
    let owner : Owner :=
      { id := env.newId 0, name := b.name, email := b.email,
        phoneNumber := b.phoneNumber, createdAt := env.now }
    (.created owner, { st with ownerStorage := storeInsert st.ownerStorage owner.id owner })

/-- POST /children (both variants agree): field presence, guardian lookup,
then insertion of the new child. The guardians store is never written. -/
def postChildren (env : Env) (st : State) (b : ChildBody) : ChildResp × State :=
  if b.name = "" ∨ b.birthdate = "" ∨ b.guardianId = "" then
    (.missingFields, st)
  else
    match storeGet st.guardiansStorage b.guardianId with
    | none => (.guardianNotFound, st)
    | some _ =>
      let child : Child :=
        { id := env.newId 0, name := b.name, birthdate := b.birthdate,
          guardianId := b.guardianId, createdAt := env.now }
      (.created child, { st with childrenStorage := storeInsert st.childrenStorage child.id child })

/-- POST /fee-structure (both variants agree): field presence with JS
truthiness (`!amount` rejects only a zero/absent amount), owner lookup,
then insertion; the amount is persisted exactly as sent. -/
def postFeeStructure (env : Env) (st : State) (b : FeeBody) : FeeResp × State :=
  if b.name = "" ∨ b.amount = 0 ∨ b.ownerId = "" then
    (.missingFields, st)
  else
    match storeGet st.ownerStorage b.ownerId with
    | none => (.ownerNotFound, st)
    | some _ =>
      let feeStructure : FeeStructure :=
        { id := env.newId 0, name := b.name, amount := b.amount, createdAt := env.now }
      (.created feeStructure,
        { st with feeStructureStorage := storeInsert st.feeStructureStorage feeStructure.id feeStructure })

/-- The `balancePerChild` map of POST /payments: a single left-to-right
pass that mutates the shared `amount` variable. A `null` entry (invalid
child) returns dummy values without touching `amount`; in `src/index.ts`
the entries are `Option Child` because the validity filter happens via the
`invalidChildIds` early return, not by filtering the list. Returns the
emitted entries and the final value of `amount`. -/
def balancePerChildLoop (amountPerChild : ℚ) : ℚ → List (Option Child) → List BalanceEntry × ℚ
  | amount, [] => ([], amount)
  | amount, none :: rest =>
    let r := balancePerChildLoop amountPerChild amount rest
    ({ childId := "", balance := 0 } :: r.1, r.2)
  | amount, some child :: rest =>
    let paymentAmount := mathMin amountPerChild amount
    let r := balancePerChildLoop amountPerChild (amount - paymentAmount) rest
    ({ childId := child.id, balance := mathMax 0 (amountPerChild - paymentAmount) } :: r.1, r.2)

/-- The `payments` map of POST /payments: the same left-to-right pass over
the same (already decremented) `amount` variable; `null` children are
skipped (the JS code maps them to `null` and filters), drawing no fresh id.
`i` indexes the fresh-id supply. Returns the payments and the final
`amount`. -/
def paymentsLoop (env : Env) (amountPerChild : ℚ) : ℚ → Nat → List (Option Child) → List Payment × ℚ
  | amount, _, [] => ([], amount)
  | amount, i, none :: rest => paymentsLoop env amountPerChild amount i rest
  | amount, i, some child :: rest =>
    let paymentAmount := mathMin amountPerChild amount
    let r := paymentsLoop env amountPerChild (amount - paymentAmount) (i + 1) rest
    ({ id := env.newId i, childId := child.id, amount := paymentAmount,
       status := .PAID, date := env.now } :: r.1, r.2)

/-- POST /payments of `src/index.ts`. Checks in source order: required
fields (JS truthiness), guardian lookup, `feeStructure :=
feeStructureStorage.values()[0]` (no absence check — the first dereference
of `feeStructure.amount` after validation throws when the store is empty,
modelled by `crashTypeError`), amount parse (`isNaN(amount) || amount <= 0`),
child-id resolution with early `invalidChildIds` return, then the two
allocation passes over the SAME `amount` variable, insertion of the
payments, and the success response. -/
def postPayments (env : Env) (st : State) (b : PaymentsBody) : PaymentsResp × State :=
  if b.childIds = none ∨ truthy b.amount = false ∨ b.guardianId = "" then
    (.missingFields, st)
  else
    match storeGet st.guardiansStorage b.guardianId with
    | none => (.guardianNotFound, st)
    | some _ =>
      let feeStructure? := (storeValues st.feeStructureStorage).head?
      match parseFloat b.amount with
      | none => (.invalidAmount, st)
      | some amount =>
        if amount ≤ 0 then (.invalidAmount, st)
        else
          let kids := b.childIds.getD []
          let validChildren := kids.map (fun cid => storeGet st.childrenStorage cid)
          let invalidChildIds := kids.filter (fun cid => (storeGet st.childrenStorage cid).isNone)
          if invalidChildIds.length > 0 then (.invalidChildIds invalidChildIds, st)
          else
            match feeStructure? with
            | none => (.crashTypeError, st)
            | some feeStructure =>
              let amountPerChild := feeStructure.amount
              let r1 := balancePerChildLoop amountPerChild amount validChildren
              let r2 := paymentsLoop env amountPerChild r1.2 0 validChildren
              (.success r2.1 r1.1,
                { st with paymentsStorage :=
                    r2.1.foldl (fun m p => storeInsert m p.id p) st.paymentsStorage })

/-- The `balancePerChild` map of the second variant, over the filtered
list of valid children. -/
def balancePerChildLoopV2 (amountPerChild : ℚ) : ℚ → List Child → List BalanceEntry × ℚ
  | amount, [] => ([], amount)
  | amount, child :: rest =>
    let paymentAmount := mathMin amountPerChild amount
    let r := balancePerChildLoopV2 amountPerChild (amount - paymentAmount) rest
    ({ childId := child.id, balance := mathMax 0 (amountPerChild - paymentAmount) } :: r.1, r.2)

/-- The `payments` map of the second variant, over the filtered list of
valid children, continuing on the same decremented `amount` variable. -/
def paymentsLoopV2 (env : Env) (amountPerChild : ℚ) : ℚ → Nat → List Child → List Payment × ℚ
  | amount, _, [] => ([], amount)
  | amount, i, child :: rest =>
    let paymentAmount := mathMin amountPerChild amount
    let r := paymentsLoopV2 env amountPerChild (amount - paymentAmount) (i + 1) rest
    ({ id := env.newId i, childId := child.id, amount := paymentAmount,
       status := .PAID, date := env.now } :: r.1, r.2)

/-- POST /payments of the second variant: same as `postPayments` except
that an empty fee-structure store is rejected with a 404 before the amount
check, and the valid children are filtered (`.filter(Boolean)`) before the
allocation passes. -/
def postPaymentsV2 (env : Env) (st : State) (b : PaymentsBody) : PaymentsResp × State :=
  if b.childIds = none ∨ truthy b.amount = false ∨ b.guardianId = "" then
    (.missingFields, st)
  else
    match storeGet st.guardiansStorage b.guardianId with
    | none => (.guardianNotFound, st)
    | some _ =>
      match (storeValues st.feeStructureStorage).head? with
      | none => (.feeStructureNotFound, st)
      | some feeStructure =>
        match parseFloat b.amount with
        | none => (.invalidAmount, st)
        | some amountNum =>
          if amountNum ≤ 0 then (.invalidAmount, st)
          else
            let kids := b.childIds.getD []
            let invalidChildIds := kids.filter (fun cid => (storeGet st.childrenStorage cid).isNone)
            let validChildren := kids.filterMap (fun cid => storeGet st.childrenStorage cid)
            if invalidChildIds.length > 0 then (.invalidChildIds invalidChildIds, st)
            else
              let amountPerChild := feeStructure.amount
              let r1 := balancePerChildLoopV2 amountPerChild amountNum validChildren
              let r2 := paymentsLoopV2 env amountPerChild r1.2 0 validChildren
              (.success r2.1 r1.1,
                { st with paymentsStorage :=
                    r2.1.foldl (fun m p => storeInsert m p.id p) st.paymentsStorage })

/-- The spread merge `{...child, ...req.body}` of PUT /children/:id:
fields present in the body replace the stored ones, absent fields are kept. -/
def mergeChild (c : Child) (p : ChildPatch) : Child :=
  { id := p.id.getD c.id
    name := p.name.getD c.name
    birthdate := p.birthdate.getD c.birthdate
    guardianId := p.guardianId.getD c.guardianId
    createdAt := p.createdAt.getD c.createdAt }

/-- PUT /children/:id (both variants agree): lookup, merge, insert back
under the path id. -/
def putChildrenId (st : State) (cid : String) (p : ChildPatch) : PutChildResp × State :=
  match storeGet st.childrenStorage cid with
  | none => (.notFound, st)
  | some child =>
    let updatedChild := mergeChild child p
    (.updated updatedChild,
      { st with childrenStorage := storeInsert st.childrenStorage cid updatedChild })

/-- Remaining funds before the i-th child, transcribed from the spec:
`remaining` starts at `requestedAmount` and decreases by
`applied = min(feePerChild, remaining)` at each child. -/
def specRemaining (feePerChild requestedAmount : ℚ) : Nat → ℚ
  | 0 => requestedAmount
  | i + 1 =>
    specRemaining feePerChild requestedAmount i -
      mathMin feePerChild (specRemaining feePerChild requestedAmount i)

/-- The amount the spec says is applied to the i-th child:
`min(feePerChild, remaining before child i)`. -/
def specApplied (feePerChild requestedAmount : ℚ) (i : Nat) : ℚ :=
  mathMin feePerChild (specRemaining feePerChild requestedAmount i)

/-- The balances the spec says are emitted: one entry per child in order,
with `balance = max(0, feePerChild - applied_i)`. -/
def specBalances (feePerChild requestedAmount : ℚ) (cs : List Child) : List BalanceEntry :=
  (List.range cs.length).map (fun i =>
    { childId := (cs.getD i default).id
      balance := mathMax 0 (feePerChild - specApplied feePerChild requestedAmount i) })

/-- The list of payment amounts of a successful allocation response. -/
def paymentAmountsOf : PaymentsResp → Option (List ℚ)
  | .success ps _ => some (ps.map Payment.amount)
  | _ => none

/-- The balance entries of a successful allocation response. -/
def balancesOf : PaymentsResp → Option (List BalanceEntry)
  | .success _ bs => some bs
  | _ => none

/-- Whether a POST /payments outcome is the `InvalidChildIds` failure. -/
def respIsInvalidChildIds : PaymentsResp → Bool
  | .invalidChildIds _ => true
  | _ => false

/-- Fixture: deterministic id supply (`uuidv4()` draws "0", "1", ...) at
time 0. -/
def envA : Env :=
  { newId := fun n => Nat.repr n, now := 0 }

/-- Fixture: the guardian of scenario A. -/
def guardianG : Guardian :=
  { id := "g", name := "Grace", email := "grace@mail.com",
    phoneNumber := "0123456789", childrenIds := ["c1", "c2"], createdAt := 0 }

/-- Fixture: first child of scenario A. -/
def childC1 : Child :=
  { id := "c1", name := "Ann", birthdate := "2019-01-01", guardianId := "g", createdAt := 0 }

/-- Fixture: second child of scenario A. -/
def childC2 : Child :=
  { id := "c2", name := "Ben", birthdate := "2020-02-02", guardianId := "g", createdAt := 0 }

/-- Fixture: the single fee structure of scenario A, amount 100. -/
def fsA : FeeStructure :=
  { id := "f1", name := "Standard", amount := 100, createdAt := 0 }

/-- Fixture: state of scenario A — one guardian, two children, one fee
structure of amount 100, no owner, no payments. -/
def stA : State :=
  { childrenStorage := [("c1", childC1), ("c2", childC2)]
    guardiansStorage := [("g", guardianG)]
    paymentsStorage := []
    ownerStorage := []
    feeStructureStorage := [("f1", fsA)] }

/-- Fixture: the allocate request of scenario A, amount 150 for the two
children. -/
def reqA : PaymentsBody :=
  { childIds := some ["c1", "c2"], amount := .num 150, guardianId := "g" }

/-- C1. The spec claims the i-th Payment of a successful allocation carries
`applied_i = min(feePerChild, remaining before child i)` — for scenario A
(fee 100, requested 150, two children) payments of 100 and 50. Running the
`src/index.ts` handler on exactly that scenario yields payment amounts 0
and 0, while the balances of the same response are the spec's 0 and 50:
the payments map reuses the `amount` variable that the preceding
`balancePerChild` map has already consumed, so every payment is computed
from the leftover of the balance pass instead of from `requestedAmount`. -/
theorem scenarioA_payment_amounts_are_zero :
    paymentAmountsOf (postPayments envA stA reqA).1 = some [0, 0] ∧
    balancesOf (postPayments envA stA reqA).1 =
      some [{ childId := "c1", balance := 0 }, { childId := "c2", balance := 50 }] ∧
    some [(0 : ℚ), 0] ≠ some [(100 : ℚ), 50] := by
  decide

/-- Fixture: an allocate request whose guardian id is unknown and whose
single child id is also unknown. -/
def reqBadGuardian : PaymentsBody :=
  { childIds := some ["nope"], amount := .num 50, guardianId := "gX" }

/-- C3 (counterexample). The claim quantifies over every allocate call with
an unresolvable child id; but the guardian check runs first, so a call
whose guardian id is also unknown fails with `GuardianNotFound`, not with
`InvalidChildIds`. -/
theorem bad_child_id_but_guardian_missing_is_not_invalid_child_ids :
    (storeGet stA.childrenStorage "nope").isNone = true ∧
    postPayments envA stA reqBadGuardian = (.guardianNotFound, stA) ∧
    respIsInvalidChildIds (postPayments envA stA reqBadGuardian).1 = false := by
  decide

/-- Fixture: scenario A state with the fee structure removed. -/
def stNoFee : State :=
  { childrenStorage := [("c1", childC1), ("c2", childC2)]
    guardiansStorage := [("g", guardianG)]
    paymentsStorage := []
    ownerStorage := []
    feeStructureStorage := [] }

/-- Fixture: a fully valid allocate request (used against `stNoFee`). -/
def reqC4 : PaymentsBody :=
  { childIds := some ["c1"], amount := .num 100, guardianId := "g" }

/-- C4. With no FeeStructure registered, a valid allocate call does NOT
fail with a 404 in `src/index.ts`: the handler never checks the fee
structure and crashes with a `TypeError` when it dereferences
`feeStructure.amount` (modelled as `crashTypeError`); the second variant
has the intended 404 check. In both variants the store — in particular the
payments map — is untouched. -/
theorem missing_fee_structure_crashes_primary_variant :
    postPayments envA stNoFee reqC4 = (.crashTypeError, stNoFee) ∧
    postPaymentsV2 envA stNoFee reqC4 = (.feeStructureNotFound, stNoFee) := by
  decide

/-- Fixture: the registered owner. -/
def ownerO : Owner :=
  { id := "o", name := "Olive", email := "olive@mail.com",
    phoneNumber := "0123456789", createdAt := 0 }

/-- Fixture: a state whose owner store already holds `ownerO`. -/
def stOwn : State :=
  { childrenStorage := []
    guardiansStorage := []
    paymentsStorage := []
    ownerStorage := [("o", ownerO)]
    feeStructureStorage := [] }

/-- Fixture: a second-owner registration request with a fresh email. -/
def ownerBody2 : OwnerBody :=
  { name := "Oscar", email := "oscar@mail.com", phoneNumber := "9876543210" }

/-- Fixture: the owner record that `src/index.ts` creates for `ownerBody2`. -/
def owner2 : Owner :=
  { id := "0", name := "Oscar", email := "oscar@mail.com",
    phoneNumber := "9876543210", createdAt := 0 }

/-- C5. With an owner already registered, `src/index.ts` accepts a POST
/owner whose email differs from the stored one (its duplicate check only
compares emails), leaving TWO owners in the store; the second variant
rejects any registration once the store is non-empty, as the claim states. -/
theorem second_owner_with_fresh_email_is_accepted :
    (storeValues stOwn.ownerStorage).length = 1 ∧
    postOwner envA stOwn ownerBody2 =
      (.created owner2, { stOwn with ownerStorage := [("o", ownerO), ("0", owner2)] }) ∧
    (storeValues (postOwner envA stOwn ownerBody2).2.ownerStorage).length = 2 ∧
    (postOwnerV2 envA stOwn ownerBody2).1 = .ownerAlreadyExists := by
  decide

/-- Fixture: a valid child-creation request against guardian `g`. -/
def bodyKid : ChildBody :=
  { name := "Kid", birthdate := "2021-05-05", guardianId := "g" }

/-- Fixture: the child record created for `bodyKid` under `envA`. -/
def childKid : Child :=
  { id := "0", name := "Kid", birthdate := "2021-05-05", guardianId := "g", createdAt := 0 }

/-- C6 (counterexample). A successful child creation does not add the new
child's id to the guardian's stored `childrenIds`: the guardian record is
left exactly as it was, without the fresh id "0". -/
theorem created_child_id_not_added_to_guardian :
    (postChildren envA stA bodyKid).1 = .created childKid ∧
    storeGet (postChildren envA stA bodyKid).2.guardiansStorage "g" = some guardianG ∧
    (childKid.id ∈ guardianG.childrenIds) = False := by
  refine ⟨by decide, by decide, ?_⟩
  simp [childKid, guardianG]

/-- Fixture: a fee-structure request with a negative amount. -/
def feeBodyNeg : FeeBody :=
  { name := "Plan", amount := -50, ownerId := "o" }

/-- Fixture: the fee structure persisted for `feeBodyNeg` under `envA`. -/
def fsNeg : FeeStructure :=
  { id := "0", name := "Plan", amount := -50, createdAt := 0 }

/-- C8 (counterexample). The field check `!req.body.amount` only rejects a
falsy (zero/absent) amount, so a NEGATIVE amount is truthy, is accepted,
and is persisted as sent: the reachable state after this call contains a
FeeStructure with amount -50. -/
theorem negative_fee_amount_is_persisted :
    postFeeStructure envA stOwn feeBodyNeg =
      (.created fsNeg, { stOwn with feeStructureStorage := [("0", fsNeg)] }) ∧
    fsNeg.amount = -50 ∧
    ¬ (0 < fsNeg.amount) := by
  decide

/-- Fixture: an allocate request whose amount is the string "0". -/
def reqZeroStr : PaymentsBody :=
  { childIds := some ["c1"], amount := .str "0", guardianId := "g" }

/-- C10 (counterexample). The claim says the 'Invalid amount' branch is
reached only by truthy amounts that parse to NaN or to a NEGATIVE number;
but the truthy string "0" parses to 0, and `amount <= 0` sends it to that
same branch. -/
theorem truthy_zero_string_reaches_invalid_amount :
    truthy (JsVal.str "0") = true ∧
    parseFloat (JsVal.str "0") = some 0 ∧
    ¬ ((0 : ℚ) < 0) ∧
    postPayments envA stA reqZeroStr = (.invalidAmount, stA) := by
  decide

/-- `Math.min` is below its first argument. -/
theorem mathMin_le_left (a b : ℚ) : mathMin a b ≤ a := by
  unfold mathMin; split <;> linarith

/-- `Math.min` is below its second argument. -/
theorem mathMin_le_right (a b : ℚ) : mathMin a b ≤ b := by
  unfold mathMin; split <;> linarith

/-- `Math.min` of two non-negative numbers is non-negative. -/
theorem mathMin_nonneg (a b : ℚ) (ha : 0 ≤ a) (hb : 0 ≤ b) : 0 ≤ mathMin a b := by
  unfold mathMin; split <;> linarith

/-- `Math.min(fee, 0)` is `0` for a non-negative fee. -/
theorem mathMin_zero_right (fee : ℚ) (hfee : 0 ≤ fee) : mathMin fee 0 = 0 := by
  unfold mathMin; split <;> linarith

/-- `Math.max(0, x)` is `x` for non-negative `x`. -/
theorem mathMax_zero_left (x : ℚ) (hx : 0 ≤ x) : mathMax 0 x = x := by
  unfold mathMax; split <;> linarith

/-- If every id of `kids` resolves (witnessed by the pointwise image being
`cs.map some`), the filter of unresolved ids is empty. -/
theorem filter_isNone_eq_nil {β : Type} (f : String → Option β) :
    ∀ (kids : List String) (cs : List β), kids.map f = cs.map some →
      kids.filter (fun k => (f k).isNone) = [] := by
  intro kids
  induction kids with
  | nil => intro cs _; rfl
  | cons k rest ih =>
    intro cs h
    cases cs with
    | nil => simp at h
    | cons c cs =>
      simp only [List.map_cons, List.cons.injEq] at h
      obtain ⟨hk, hrest⟩ := h
      simp [List.filter, hk, ih cs hrest]

/-- One step of the spec's remaining-funds recurrence, restarted from the
funds left after the first child. -/
theorem specRemaining_shift (fee a : ℚ) (i : Nat) :
    specRemaining fee a (i + 1) = specRemaining fee (a - mathMin fee a) i := by
  induction i with
  | zero => rfl
  | succ n ih =>
    calc specRemaining fee a (n + 2)
        = specRemaining fee a (n + 1) - mathMin fee (specRemaining fee a (n + 1)) := rfl
      _ = specRemaining fee (a - mathMin fee a) n -
            mathMin fee (specRemaining fee (a - mathMin fee a) n) := by rw [ih]
      _ = specRemaining fee (a - mathMin fee a) (n + 1) := rfl

/-- Once the spec's remaining funds hit zero they stay zero (for a
non-negative fee). -/
theorem specRemaining_zero_succ (fee a : ℚ) (i : Nat) (hfee : 0 ≤ fee)
    (h : specRemaining fee a i = 0) : specRemaining fee a (i + 1) = 0 := by
  show specRemaining fee a i - mathMin fee (specRemaining fee a i) = 0
  rw [h, mathMin_zero_right fee hfee, sub_zero]

/-- The `balancePerChild` pass over an all-valid child list emits exactly
the balances described by the spec's recurrence. -/
theorem balancePerChildLoop_eq_specBalances (fee : ℚ) :
    ∀ (cs : List Child) (a : ℚ),
      (balancePerChildLoop fee a (cs.map some)).1 = specBalances fee a cs := by
  intro cs
  induction cs with
  | nil => intro a; rfl
  | cons c rest ih =>
    intro a
    simp only [List.map_cons, balancePerChildLoop, ih]
    simp only [specBalances, List.length_cons, List.range_succ_eq_map, List.map_cons,
      List.map_map]
    refine congrArg₂ List.cons rfl ?_
    refine List.map_congr_left (fun i _ => ?_)
    simp only [Function.comp_apply, specApplied, Nat.succ_eq_add_one, List.getD_cons_succ,
      specRemaining_shift fee a i]

/-- The balance entry at a position where the spec's remaining funds are
zero is the full fee. -/
theorem specBalances_at_zero (fee a : ℚ) (cs : List Child) (i : Nat) (hfee : 0 ≤ fee)
    (hi : i < cs.length) (h : specRemaining fee a i = 0) :
    (specBalances fee a cs)[i]? =
      some { childId := (cs.getD i default).id, balance := fee } := by
  unfold specBalances
  rw [List.getElem?_map, List.getElem?_range hi]
  simp only [Option.map_some', specApplied, h, mathMin_zero_right fee hfee, sub_zero,
    mathMax_zero_left fee hfee]

/-- The final `amount` after the `balancePerChild` pass is non-negative
whenever the initial amount is. -/
theorem balancePerChildLoop_rem_nonneg (fee : ℚ) :
    ∀ (os : List (Option Child)) (a : ℚ), 0 ≤ a → 0 ≤ (balancePerChildLoop fee a os).2 := by
  intro os
  induction os with
  | nil => intro a ha; exact ha
  | cons o rest ih =>
    intro a ha
    cases o with
    | none => simpa [balancePerChildLoop] using ih a ha
    | some c =>
      simp only [balancePerChildLoop]
      exact ih _ (by have := mathMin_le_right fee a; linarith)

/-- Every payment emitted by the `payments` pass has an amount between 0
and the per-child fee, provided the fee and the incoming remaining amount
are non-negative. -/
theorem paymentsLoop_amounts_bounded (env : Env) (fee : ℚ) (hfee : 0 ≤ fee) :
    ∀ (os : List (Option Child)) (rem : ℚ) (i : Nat), 0 ≤ rem →
      ∀ p ∈ (paymentsLoop env fee rem i os).1, 0 ≤ p.amount ∧ p.amount ≤ fee := by
  intro os
  induction os with
  | nil => intro rem i _ p hp; simp [paymentsLoop] at hp
  | cons o rest ih =>
    intro rem i hrem p hp
    cases o with
    | none => exact ih rem i hrem p (by simpa [paymentsLoop] using hp)
    | some c =>
      simp only [paymentsLoop, List.mem_cons] at hp
      rcases hp with rfl | hp
      · exact ⟨mathMin_nonneg fee rem hfee hrem, mathMin_le_left fee rem⟩
      · exact ih _ (i + 1) (by have := mathMin_le_right fee rem; linarith) p hp

/-- When every check of POST /payments passes (fields present, guardian
found, amount parses positive, all child ids resolve, a fee structure
exists), the `src/index.ts` handler takes the success branch: the balance
pass runs on the parsed amount, the payments pass runs on what that pass
left of it, and the payments are inserted into the store. -/
theorem postPayments_success_run
    (env : Env) (st : State) (b : PaymentsBody) (g : Guardian) (fs : FeeStructure)
    (a : ℚ) (kids : List String) (cs : List Child)
    (hkids : b.childIds = some kids)
    (htr : truthy b.amount = true)
    (hgid : b.guardianId ≠ "")
    (hg : storeGet st.guardiansStorage b.guardianId = some g)
    (hfs : (storeValues st.feeStructureStorage).head? = some fs)
    (ha : parseFloat b.amount = some a)
    (hapos : 0 < a)
    (hres : kids.map (fun cid => storeGet st.childrenStorage cid) = cs.map some) :
    postPayments env st b =
      (.success
        (paymentsLoop env fs.amount
          (balancePerChildLoop fs.amount a (cs.map some)).2 0 (cs.map some)).1
        (balancePerChildLoop fs.amount a (cs.map some)).1,
       { st with paymentsStorage :=
          ((paymentsLoop env fs.amount
            (balancePerChildLoop fs.amount a (cs.map some)).2 0 (cs.map some)).1.foldl
            (fun m p => storeInsert m p.id p) st.paymentsStorage) }) := by
  have hnla : ¬ a ≤ 0 := not_le.mpr hapos
  have hfilter : kids.filter (fun cid => (storeGet st.childrenStorage cid).isNone) = [] :=
    filter_isNone_eq_nil (fun cid => storeGet st.childrenStorage cid) kids cs hres
  simp only [postPayments, hkids, htr, hg, hfs, ha, hres, hfilter]
  simp [hgid, hnla, hfilter, hres]

/-- C2. For every successful allocate call (fields present, guardian
found, fee structure present with non-negative fee, amount parses
positive, every child id resolving to the children `cs` in order), the
emitted balance list is exactly `specBalances`: one entry per child in
`childIds` order carrying `max(0, feePerChild - applied_i)` with
`applied_i = min(feePerChild, remaining_i)` per the spec's recurrence;
at every position where the remaining funds are zero the balance is the
full fee, and the remaining funds stay zero from one position to the next. -/
theorem allocate_balances_follow_spec
    (env : Env) (st : State) (b : PaymentsBody) (g : Guardian) (fs : FeeStructure)
    (a : ℚ) (kids : List String) (cs : List Child)
    (hkids : b.childIds = some kids)
    (htr : truthy b.amount = true)
    (hgid : b.guardianId ≠ "")
    (hg : storeGet st.guardiansStorage b.guardianId = some g)
    (hfs : (storeValues st.feeStructureStorage).head? = some fs)
    (hfee : 0 ≤ fs.amount)
    (ha : parseFloat b.amount = some a)
    (hapos : 0 < a)
    (hres : kids.map (fun cid => storeGet st.childrenStorage cid) = cs.map some) :
    ∃ ps st',
      postPayments env st b = (.success ps (specBalances fs.amount a cs), st') ∧
      (∀ i, i < cs.length → specRemaining fs.amount a i = 0 →
        (specBalances fs.amount a cs)[i]? =
          some { childId := (cs.getD i default).id, balance := fs.amount }) ∧
      (∀ i, specRemaining fs.amount a i = 0 → specRemaining fs.amount a (i + 1) = 0) := by
  have hrun := postPayments_success_run env st b g fs a kids cs hkids htr hgid hg hfs ha hapos hres
  rw [balancePerChildLoop_eq_specBalances] at hrun
  exact ⟨_, _, hrun, fun i hi h => specBalances_at_zero fs.amount a cs i hfee hi h,
    fun i h => specRemaining_zero_succ fs.amount a i hfee h⟩

/-- C2 witness: scenario A (fee 100, amount 150, children c1 and c2). -/
theorem allocate_balances_follow_spec_witness :
    ∃ ps st',
      postPayments envA stA reqA =
        (.success ps (specBalances fsA.amount 150 [childC1, childC2]), st') ∧
      (∀ i, i < ([childC1, childC2] : List Child).length →
        specRemaining fsA.amount 150 i = 0 →
        (specBalances fsA.amount 150 [childC1, childC2])[i]? =
          some { childId := (([childC1, childC2] : List Child).getD i default).id,
                 balance := fsA.amount }) ∧
      (∀ i, specRemaining fsA.amount 150 i = 0 → specRemaining fsA.amount 150 (i + 1) = 0) :=
  allocate_balances_follow_spec envA stA reqA guardianG fsA 150 ["c1", "c2"]
    [childC1, childC2] rfl (by decide) (by decide) (by decide) rfl (by decide) rfl
    (by decide) (by decide)

/-- C7. For every successful allocate call with a positive fee and a
positive parsed amount, every emitted payment amount lies between 0 and
the per-child fee (even though, by C1, the amounts are computed from the
leftover of the balance pass). -/
theorem allocate_payment_amounts_within_fee
    (env : Env) (st : State) (b : PaymentsBody) (g : Guardian) (fs : FeeStructure)
    (a : ℚ) (kids : List String) (cs : List Child)
    (hkids : b.childIds = some kids)
    (htr : truthy b.amount = true)
    (hgid : b.guardianId ≠ "")
    (hg : storeGet st.guardiansStorage b.guardianId = some g)
    (hfs : (storeValues st.feeStructureStorage).head? = some fs)
    (hfeepos : 0 < fs.amount)
    (ha : parseFloat b.amount = some a)
    (hapos : 0 < a)
    (hres : kids.map (fun cid => storeGet st.childrenStorage cid) = cs.map some) :
    ∃ ps bs st',
      postPayments env st b = (.success ps bs, st') ∧
      ∀ p ∈ ps, 0 ≤ p.amount ∧ p.amount ≤ fs.amount := by
  exact ⟨_, _, _,
    postPayments_success_run env st b g fs a kids cs hkids htr hgid hg hfs ha hapos hres,
    paymentsLoop_amounts_bounded env fs.amount (le_of_lt hfeepos) (cs.map some) _ 0
      (balancePerChildLoop_rem_nonneg fs.amount (cs.map some) a (le_of_lt hapos))⟩

/-- C7 witness: scenario A. -/
theorem allocate_payment_amounts_within_fee_witness :
    ∃ ps bs st',
      postPayments envA stA reqA = (.success ps bs, st') ∧
      ∀ p ∈ ps, 0 ≤ p.amount ∧ p.amount ≤ fsA.amount :=
  allocate_payment_amounts_within_fee envA stA reqA guardianG fsA 150 ["c1", "c2"]
    [childC1, childC2] rfl (by decide) (by decide) (by decide) rfl (by decide) rfl
    (by decide) (by decide)

/-- C3 (amended). Provided the request passes the field-presence, guardian
and amount checks, an allocate call in which at least one child id does
not resolve fails with `InvalidChildIds` carrying exactly the list of
unresolved ids (in `childIds` order, one entry per occurrence), and the
state — in particular the payments store — is unchanged. -/
theorem invalid_child_ids_fail_atomically
    (env : Env) (st : State) (b : PaymentsBody) (g : Guardian) (a : ℚ) (kids : List String)
    (hkids : b.childIds = some kids)
    (htr : truthy b.amount = true)
    (hgid : b.guardianId ≠ "")
    (hg : storeGet st.guardiansStorage b.guardianId = some g)
    (ha : parseFloat b.amount = some a)
    (hapos : 0 < a)
    (hinv : kids.filter (fun cid => (storeGet st.childrenStorage cid).isNone) ≠ []) :
    postPayments env st b =
      (.invalidChildIds (kids.filter (fun cid => (storeGet st.childrenStorage cid).isNone)), st) ∧
    (postPayments env st b).2.paymentsStorage = st.paymentsStorage := by
  have hnla : ¬ a ≤ 0 := not_le.mpr hapos
  have hlen : 0 < (kids.filter (fun cid => (storeGet st.childrenStorage cid).isNone)).length :=
    List.length_pos.mpr hinv
  have h1 : postPayments env st b =
      (.invalidChildIds (kids.filter (fun cid => (storeGet st.childrenStorage cid).isNone)), st) := by
    simp only [postPayments, hkids, htr, hg, ha]
    simp [hgid, hnla, hlen]
  exact ⟨h1, by rw [h1]⟩

/-- Fixture: an allocate request mixing a valid and an unknown child id. -/
def reqMixed : PaymentsBody :=
  { childIds := some ["c1", "nope"], amount := .num 50, guardianId := "g" }

/-- C3 witness: one valid and one unknown child id on scenario A's state. -/
theorem invalid_child_ids_fail_atomically_witness :
    postPayments envA stA reqMixed =
      (.invalidChildIds (["c1", "nope"].filter
        (fun cid => (storeGet stA.childrenStorage cid).isNone)), stA) ∧
    (postPayments envA stA reqMixed).2.paymentsStorage = stA.paymentsStorage :=
  invalid_child_ids_fail_atomically envA stA reqMixed guardianG 50 ["c1", "nope"]
    rfl (by decide) (by decide) (by decide) rfl (by decide) (by decide)

/-- C6 (amended). POST /children never writes the guardians store, in any
branch: the created child's id is NOT added to the guardian's stored
`childrenIds`; the guardian record is unchanged by child creation. -/
theorem child_creation_never_touches_guardians (env : Env) (st : State) (b : ChildBody) :
    (postChildren env st b).2.guardiansStorage = st.guardiansStorage := by
  unfold postChildren
  split
  · rfl
  · split <;> rfl

/-- C8 (amended). A successful POST /fee-structure persists the request's
amount exactly as sent; the only amounts the truthiness check excludes are
zero (and absent) ones, so the persisted amount is merely nonzero — not
necessarily positive. -/
theorem fee_structure_success_persists_request_amount
    (env : Env) (st : State) (b : FeeBody) (fs : FeeStructure) (st' : State)
    (h : postFeeStructure env st b = (.created fs, st')) :
    fs.amount = b.amount ∧ fs.amount ≠ 0 ∧
    storeGet st'.feeStructureStorage fs.id = some fs := by
  simp only [postFeeStructure] at h
  split at h
  · exact absurd h (by simp)
  · rename_i hcond
    split at h
    · exact absurd h (by simp)
    · rw [Prod.mk.injEq, FeeResp.created.injEq] at h
      obtain ⟨h1, h2⟩ := h
      subst h1
      subst h2
      refine ⟨rfl, ?_, storeGet_storeInsert_self _ _ _⟩
      intro h0
      exact hcond (Or.inr (Or.inl h0))

/-- Fixture: a valid fee-structure request with a positive amount. -/
def feeBodyPos : FeeBody :=
  { name := "Standard", amount := 100, ownerId := "o" }

/-- Fixture: the fee structure persisted for `feeBodyPos` under `envA`. -/
def fsPos : FeeStructure :=
  { id := "0", name := "Standard", amount := 100, createdAt := 0 }

/-- C8 witness: a fee structure created with amount 100. -/
theorem fee_structure_success_persists_request_amount_witness :
    fsPos.amount = feeBodyPos.amount ∧ fsPos.amount ≠ 0 ∧
    storeGet ({ stOwn with feeStructureStorage := [("0", fsPos)] }).feeStructureStorage
      fsPos.id = some fsPos :=
  fee_structure_success_persists_request_amount envA stOwn feeBodyPos fsPos
    { stOwn with feeStructureStorage := [("0", fsPos)] } (by decide)

/-- C9. For every PUT /children/:id on an existing child, the stored child
after the update is the spread merge of the stored record and the patch:
it agrees with the request body on every field the body supplies, and
every field absent from the body keeps its stored value. -/
theorem put_children_partial_overwrite
    (st : State) (cid : String) (c : Child) (p : ChildPatch)
    (h : storeGet st.childrenStorage cid = some c) :
    putChildrenId st cid p =
      (.updated (mergeChild c p),
       { st with childrenStorage := storeInsert st.childrenStorage cid (mergeChild c p) }) ∧
    storeGet (putChildrenId st cid p).2.childrenStorage cid = some (mergeChild c p) ∧
    (∀ v, p.id = some v → (mergeChild c p).id = v) ∧
    (p.id = none → (mergeChild c p).id = c.id) ∧
    (∀ v, p.name = some v → (mergeChild c p).name = v) ∧
    (p.name = none → (mergeChild c p).name = c.name) ∧
    (∀ v, p.birthdate = some v → (mergeChild c p).birthdate = v) ∧
    (p.birthdate = none → (mergeChild c p).birthdate = c.birthdate) ∧
    (∀ v, p.guardianId = some v → (mergeChild c p).guardianId = v) ∧
    (p.guardianId = none → (mergeChild c p).guardianId = c.guardianId) ∧
    (∀ v, p.createdAt = some v → (mergeChild c p).createdAt = v) ∧
    (p.createdAt = none → (mergeChild c p).createdAt = c.createdAt) := by
  have hrun : putChildrenId st cid p =
      (.updated (mergeChild c p),
       { st with childrenStorage := storeInsert st.childrenStorage cid (mergeChild c p) }) := by
    simp [putChildrenId, h]
  refine ⟨hrun, by rw [hrun]; exact storeGet_storeInsert_self _ _ _,
    ?_, ?_, ?_, ?_, ?_, ?_, ?_, ?_, ?_, ?_⟩ <;>
  first
    | exact fun v hv => by simp [mergeChild, hv]
    | exact fun hv => by simp [mergeChild, hv]

/-- Fixture: a patch supplying only a new name. -/
def patchName : ChildPatch :=
  { id := none, name := some "Annie", birthdate := none, guardianId := none, createdAt := none }

/-- C9 witness: renaming child c1 while every other field is kept. -/
theorem put_children_partial_overwrite_witness :
    putChildrenId stA "c1" patchName =
      (.updated (mergeChild childC1 patchName),
       { stA with childrenStorage := storeInsert stA.childrenStorage "c1" (mergeChild childC1 patchName) }) ∧
    storeGet (putChildrenId stA "c1" patchName).2.childrenStorage "c1" =
      some (mergeChild childC1 patchName) ∧
    (∀ v, patchName.id = some v → (mergeChild childC1 patchName).id = v) ∧
    (patchName.id = none → (mergeChild childC1 patchName).id = childC1.id) ∧
    (∀ v, patchName.name = some v → (mergeChild childC1 patchName).name = v) ∧
    (patchName.name = none → (mergeChild childC1 patchName).name = childC1.name) ∧
    (∀ v, patchName.birthdate = some v → (mergeChild childC1 patchName).birthdate = v) ∧
    (patchName.birthdate = none → (mergeChild childC1 patchName).birthdate = childC1.birthdate) ∧
    (∀ v, patchName.guardianId = some v → (mergeChild childC1 patchName).guardianId = v) ∧
    (patchName.guardianId = none → (mergeChild childC1 patchName).guardianId = childC1.guardianId) ∧
    (∀ v, patchName.createdAt = some v → (mergeChild childC1 patchName).createdAt = v) ∧
    (patchName.createdAt = none → (mergeChild childC1 patchName).createdAt = childC1.createdAt) :=
  put_children_partial_overwrite stA "c1" childC1 patchName (by decide)

/-- C10 (amended). (a) A falsy `amount` (the number 0, an empty string, or
an absent field) short-circuits POST /payments to the 'Missing required
fields' response with the state untouched, whatever the stores contain —
before the guardian, fee-structure and child-id checks can run. (b) The
'Invalid amount' response arises only from a truthy `amount` that parses
to NaN or to a NON-POSITIVE number (the claim said "negative", but a
truthy string such as "0" parses to 0 and is also sent there), and it
leaves the state untouched. -/
theorem payments_falsy_amount_vs_invalid_amount :
    (∀ (env : Env) (st : State) (b : PaymentsBody), truthy b.amount = false →
      postPayments env st b = (.missingFields, st)) ∧
    (∀ (env : Env) (st : State) (b : PaymentsBody) (st' : State),
      postPayments env st b = (.invalidAmount, st') →
      truthy b.amount = true ∧ st' = st ∧
        (parseFloat b.amount = none ∨ ∃ q, parseFloat b.amount = some q ∧ q ≤ 0)) := by
  constructor
  · intro env st b hfalsy
    unfold postPayments
    rw [if_pos (Or.inr (Or.inl hfalsy))]
  · intro env st b st' h
    simp only [postPayments] at h
    split at h
    · exact absurd h (by simp)
    · rename_i hcond
      have htr : truthy b.amount = true := by
        rcases Bool.eq_false_or_eq_true (truthy b.amount) with ht | hf
        · exact ht
        · exact absurd (Or.inr (Or.inl hf)) hcond
      split at h
      · exact absurd h (by simp)
      · split at h
        · rename_i hpf
          rw [Prod.mk.injEq] at h
          exact ⟨htr, h.2.symm, Or.inl hpf⟩
        · rename_i q hpf
          split at h
          · rename_i hle
            rw [Prod.mk.injEq] at h
            exact ⟨htr, h.2.symm, Or.inr ⟨q, hpf, hle⟩⟩
          · split at h
            · exact absurd h (by simp)
            · split at h
              · exact absurd h (by simp)
              · exact absurd h (by simp)

/-- Fixture: an allocate request whose amount is the number 0 (falsy). -/
def reqZeroNum : PaymentsBody :=
  { childIds := some ["c1"], amount := .num 0, guardianId := "g" }

/-- C10 witness: amount 0 is rejected as a missing field even though the
guardian, fee structure and child all exist; the truthy string "0" reaches
the 'Invalid amount' branch with a parsed value that is non-positive. -/
theorem payments_falsy_amount_vs_invalid_amount_witness :
    postPayments envA stA reqZeroNum = (.missingFields, stA) ∧
    (truthy reqZeroStr.amount = true ∧ stA = stA ∧
      (parseFloat reqZeroStr.amount = none ∨
        ∃ q, parseFloat reqZeroStr.amount = some q ∧ q ≤ 0)) :=
  ⟨payments_falsy_amount_vs_invalid_amount.1 envA stA reqZeroNum (by decide),
   payments_falsy_amount_vs_invalid_amount.2 envA stA reqZeroStr stA (by decide)⟩
